import Mathlib

/-!
Verification of the Jak II Archipelago bridging subsystem.

This file gives a shallow embedding, in Lean, of the two cooperating agents of
the repository (the memory-reading poller `Jak2MemoryReader` in
`worlds/jakii/agents/memory_reader.py` and the REPL dispatcher `Jak2ReplClient`
in `worlds/jakii/agents/repl_client.py`), and proves properties of the
embedded operations.  Machine integers are modelled as `Nat` (the Python
integers involved are non-negative); process-memory reads and socket I/O are
modelled by explicit oracle parameters; fallible reads return `Option`.
-/

namespace Jak2

/-! ## OffsetFactory (memory_reader.py, lines 116-129) -/

/-- Embeds the `OffsetFactory` dataclass: a single running cursor. -/

structure OffsetFactory where
  current_offset : Nat
deriving Repr, DecidableEq

/-- Embeds `OffsetFactory.define(self, size, length)`: align `current_offset`
up to a multiple of `size`, return the aligned offset, and advance the cursor
by `size * length`.  Mirrors lines 120-129 of memory_reader.py. -/

def OffsetFactory.define (f : OffsetFactory) (size length : Nat) :
    Nat × OffsetFactory :=
  let bytes_to_alignment := f.current_offset % size
  let aligned :=
    if bytes_to_alignment = 0 then f.current_offset
    else f.current_offset + (size - bytes_to_alignment)
  (aligned, ⟨aligned + size * length⟩)

/-- Runs a sequence of `define` declarations `(size, length)` in order,
returning the list of offsets handed out and the final factory state.
This mirrors the module-level sequence of `offsets.define(...)` calls. -/

def defineSeq : OffsetFactory → List (Nat × Nat) → List Nat × OffsetFactory
  | f, [] => ([], f)
  | f, (s, l) :: rest =>
    let r := f.define s l
    let rr := defineSeq r.2 rest
    (r.1 :: rr.1, rr.2)

/-- Size constants from memory_reader.py lines 104-106. -/

def sizeof_uint64 : Nat := 8

def sizeof_uint32 : Nat := 4

def sizeof_uint8 : Nat := 1

/-- Constant from memory_reader.py line 111 (`expected_memory_version = 2`). -/

def expected_memory_version : Nat := 2

/-- The declaration sequence named by the claim:
`(4,1),(8,1),(8,1),(4,70),(4,24),(1,4)`. -/

def claimDeclSeq : List (Nat × Nat) :=
  [(sizeof_uint32, 1), (sizeof_uint64, 1), (sizeof_uint64, 1),
   (sizeof_uint32, 70), (sizeof_uint32, 24), (sizeof_uint8, 4)]

/-- The declaration sequence actually issued at module level in
memory_reader.py lines 137-152 (version, two 64-bit counters, the two mission
arrays, the version-2 connection status word, and the 4-byte end marker). -/

def jak2DeclSeq : List (Nat × Nat) :=
  [(sizeof_uint32, 1), (sizeof_uint64, 1), (sizeof_uint64, 1),
   (sizeof_uint32, 70), (sizeof_uint32, 24), (sizeof_uint32, 1),
   (sizeof_uint8, 4)]

/-- Offsets of the module-level layout, as computed by `defineSeq` from a
fresh factory; positions mirror the order of `offsets.define` calls. -/

def jak2Offsets : List Nat := (defineSeq ⟨0⟩ jak2DeclSeq).1

def memory_version_offset : Nat := jak2Offsets.getD 0 0

def next_mission_index_offset : Nat := jak2Offsets.getD 1 0

def next_side_mission_index_offset : Nat := jak2Offsets.getD 2 0

def missions_checked_offset : Nat := jak2Offsets.getD 3 0

def side_missions_checked_offset : Nat := jak2Offsets.getD 4 0

/-! ## Identifier mapping and mission catalogs -/

/-- Embeds the `GAME_TASK_TO_MISSION_ID` dictionary of memory_reader.py lines
27-94: the raw game-task enum values 6..70 map to Archipelago mission ids
1..65, entry for entry as written in the source. -/

def GAME_TASK_TO_MISSION_ID : List (Nat × Nat) :=
  [(6, 1), (7, 2), (8, 3), (9, 4), (10, 5), (11, 6), (12, 7), (13, 8), (14, 9),
   (15, 10), (16, 11), (17, 12), (18, 13), (19, 14), (20, 15), (21, 16),
   (22, 17), (23, 18), (24, 19), (25, 20), (26, 21), (27, 22), (28, 23),
   (29, 24), (30, 25), (31, 26), (32, 27), (33, 28), (34, 29), (35, 30),
   (36, 31), (37, 32), (38, 33), (39, 34), (40, 35), (41, 36), (42, 37),
   (43, 38), (44, 39), (45, 40), (46, 41), (47, 42), (48, 43), (49, 44),
   (50, 45), (51, 46), (52, 47), (53, 48), (54, 49), (55, 50), (56, 51),
   (57, 52), (58, 53), (59, 54), (60, 55), (61, 56), (62, 57), (63, 58),
   (64, 59), (65, 60), (66, 61), (67, 62), (68, 63), (69, 64), (70, 65)]

/-- Key set of `main_mission_table` in locs/mission_locations.py: the dict
literal has exactly the keys 1..65. -/

def main_mission_table_keys : List Nat := List.range' 1 65

/-- Key set of `side_mission_table` in locs/mission_locations.py: the dict
literal has exactly the keys 1..33. -/

def side_mission_table_keys : List Nat := List.range' 1 33

/-! ## Memory reader state and `read_memory` -/

/-- The mutable fields of `Jak2MemoryReader` relevant to the poll loop
(memory_reader.py lines 166-181). -/

structure MemoryReaderState where
  location_outbox : List Nat
  outbox_index : Nat
  finished_game : Bool
  connected : Bool
  initiated_connect : Bool
  goal_address : Option Nat
deriving Repr, DecidableEq

/-- A successful snapshot of the game-side block, at the granularity at which
`read_memory` consumes it: the two 64-bit counters and the two uint32 arrays
(modelled as total functions of the array index, since `read_goal_address`
reads whatever uint32 lies at the requested offset). -/

structure GameSnapshot where
  next_mission_idx : Nat
  next_side_mission_idx : Nat
  missions_checked : Nat → Nat
  side_missions_checked : Nat → Nat

/-- The raw main-mission identifiers scanned by one poll: entries `0` up to
`next_mission_idx` of the missions array (memory_reader.py lines 1012-1013
and again lines 1073-1074). -/

def main_raws (g : GameSnapshot) : List Nat :=
  (List.range g.next_mission_idx).map g.missions_checked

/-- The raw side-mission identifiers scanned by one poll (lines 1047-1048). -/

def side_raws (g : GameSnapshot) : List Nat :=
  (List.range g.next_side_mission_idx).map g.side_missions_checked

/-- One main-mission loop body of `read_memory` (lines 1012-1044): the raw
game-task id is checked for membership against the outbox itself, then
translated through `GAME_TASK_TO_MISSION_ID`, verified against
`main_mission_table`, and the translated id is appended. -/

def processMainMission (outbox : List Nat) (raw_game_task_id : Nat) : List Nat :=
  if raw_game_task_id ∈ outbox then outbox
  else
    match GAME_TASK_TO_MISSION_ID.lookup raw_game_task_id with
    | some mission_id =>
      if mission_id ∈ main_mission_table_keys then outbox ++ [mission_id]
      else outbox
    | none => outbox

/-- One side-mission loop body of `read_memory` (lines 1047-1069): the raw id
is checked against the outbox, verified against `side_mission_table`, and
appended with the `+ 100` location offset. -/

def processSideMission (outbox : List Nat) (raw_side_mission_id : Nat) : List Nat :=
  if raw_side_mission_id ∈ outbox then outbox
  else
    if raw_side_mission_id ∈ side_mission_table_keys then
      outbox ++ [raw_side_mission_id + 100]
    else outbox

/-- Embeds one successful run of `Jak2MemoryReader.read_memory` (lines
1000-1092) over a snapshot: scan the main array, scan the side array, then
latch `finished_game` when raw id 70 occurs among the scanned main entries. -/

def read_memory (s : MemoryReaderState) (g : GameSnapshot) : MemoryReaderState :=
  let outbox1 := (main_raws g).foldl processMainMission s.location_outbox
  let outbox2 := (side_raws g).foldl processSideMission outbox1
  let finished := if 70 ∈ main_raws g then true else s.finished_game
  { s with location_outbox := outbox2, finished_game := finished }

/-! ## Logging events and the poller tick -/

/-- Structured stand-ins for the log messages the memory reader emits; each
constructor carries exactly the data interpolated into the corresponding
format string of the source. -/

inductive LogEvent where
  /-- The remediation message of main_tick lines 234-243 ("Error reading game
  memory! (Did the game crash?) ... reopen the Jak II Client ..."). -/
  | connectionLostRemediation : LogEvent
  /-- The message of verify_memory_version lines 600-602 ("Version mismatch!
  Expected {expected}, got {found}"). -/
  | versionMismatch (expected found : Nat) : LogEvent
  /-- The message of verify_memory_version lines 653-664 (version read threw;
  found version is None). -/
  | versionReadFailed (expected : Nat) : LogEvent
  /-- The message of verify_memory_version lines 550-551 (no goal address). -/
  | noGoalAddress : LogEvent
  /-- The success message of verify_memory_version line 588. -/
  | readerReady : LogEvent
deriving Repr, DecidableEq

/-- Embeds `Jak2MemoryReader.verify_memory_version` (lines 547-677) at the
level of its state effect: `read_version` is the result of
`read_goal_address(memory_version_offset, sizeof_uint32)`, with `none`
standing for a raised `ProcessError`/`MemoryReadError`/`WinAPIError`. -/

def verify_memory_version (s : MemoryReaderState) (read_version : Option Nat) :
    MemoryReaderState × List LogEvent :=
  match s.goal_address with
  | none => ({ s with connected := false }, [LogEvent.noGoalAddress])
  | some _ =>
    match read_version with
    | some memory_version =>
      if memory_version = expected_memory_version then
        ({ s with connected := true }, [LogEvent.readerReady])
      else
        ({ s with connected := false },
         [LogEvent.versionMismatch expected_memory_version memory_version])
    | none =>
      ({ s with connected := false },
       [LogEvent.versionReadFailed expected_memory_version])

/-- The environment-supplied outcomes a single `main_tick` can observe. -/

structure TickInputs where
  /-- Outcome of `connect()` if it runs: the resulting `connected` flag and
  `goal_address`.  `connect` (lines 269-291) mutates only the
  connection-establishment fields; it never touches `location_outbox`,
  `outbox_index` or `finished_game`. -/
  connect_result : Bool × Option Nat
  /-- Whether the liveness probe `read_bool(base_address)` (line 230)
  succeeds. -/
  ping_ok : Bool
  /-- When true, the first `read_goal_address` inside `read_memory` raises a
  memory-read error, which lines 1084-1090 catch: `read_memory` then returns
  `[]` with no state change. -/
  scan_fail : Bool
  /-- The snapshot consumed by a successful `read_memory`. -/
  snapshot : GameSnapshot

/-- What a single `main_tick` did, as observable from outside the agent. -/

structure TickTrace where
  read_memory_invoked : Bool
  /-- The argument passed to `inform_checked_location` (line 261), when the
  callback fires: the source passes the whole `location_outbox`. -/
  informed_locations : Option (List Nat)
  informed_finished : Bool
  logged : List LogEvent

def emptyTrace : TickTrace :=
  { read_memory_invoked := false, informed_locations := none,
    informed_finished := false, logged := [] }

/-- The state effect of `connect()` given its outcome; `initiated_connect` is
reset at line 227 after the call. -/

def apply_connect (s : MemoryReaderState) (r : Bool × Option Nat) :
    MemoryReaderState :=
  { s with connected := r.1, goal_address := r.2, initiated_connect := false }

/-- The guarded `read_memory` call of main_tick lines 250-255 together with
the internal error handling of read_memory lines 1084-1090: on a failed read
the method returns `[]` and the state is unchanged. -/

def read_memory_checked (s : MemoryReaderState) (inp : TickInputs) :
    MemoryReaderState × List Nat :=
  if inp.scan_fail then (s, [])
  else
    let s2 := read_memory s inp.snapshot
    (s2, s2.location_outbox)

/-- The opening of `main_tick` (lines 223-227): run `connect()` when an
external reconnect was requested, then clear `initiated_connect`. -/

def tick_connect_phase (s : MemoryReaderState) (inp : TickInputs) :
    MemoryReaderState :=
  if s.initiated_connect then apply_connect s inp.connect_result else s

/-- The connected part of `main_tick` (lines 228-267): liveness probe
(failure logs the remediation message of lines 234-243 and clears
`connected`, skipping the rest of the tick), then the guarded `read_memory`,
then reporting of outbox entries past the cursor (lines 256-262: the whole
`location_outbox` is passed to `inform_checked_location` and the cursor
advances by exactly one), then the finished-game callback (lines 265-267). -/

def tick_poll_phase (s0 : MemoryReaderState) (inp : TickInputs) :
    MemoryReaderState × TickTrace :=
  if inp.ping_ok then
    if (read_memory_checked s0 inp).1.outbox_index
        < (read_memory_checked s0 inp).1.location_outbox.length then
      ({ (read_memory_checked s0 inp).1 with
          outbox_index := (read_memory_checked s0 inp).1.outbox_index + 1 },
       { read_memory_invoked := true,
         informed_locations := some (read_memory_checked s0 inp).1.location_outbox,
         informed_finished := (read_memory_checked s0 inp).1.finished_game,
         logged := [] })
    else
      ((read_memory_checked s0 inp).1,
       { read_memory_invoked := true, informed_locations := none,
         informed_finished := (read_memory_checked s0 inp).1.finished_game,
         logged := [] })
  else
    ({ s0 with connected := false },
     { read_memory_invoked := false, informed_locations := none,
       informed_finished := false,
       logged := [LogEvent.connectionLostRemediation] })

/-- Embeds `Jak2MemoryReader.main_tick` (lines 222-267): the connect phase,
then — only while `connected` — the poll phase. -/

def main_tick (s : MemoryReaderState) (inp : TickInputs) :
    MemoryReaderState × TickTrace :=
  if (tick_connect_phase s inp).connected then
    tick_poll_phase (tick_connect_phase s inp) inp
  else (tick_connect_phase s inp, emptyTrace)

/-- Runs a sequence of ticks, collecting the trace of each. -/

def run_ticks (s : MemoryReaderState) : List TickInputs →
    MemoryReaderState × List TickTrace
  | [] => (s, [])
  | inp :: rest =>
    let r := main_tick s inp
    let rr := run_ticks r.1 rest
    (rr.1, r.2 :: rr.2)

/-- All location ids handed to `inform_checked_location` over a run. -/

def reported_upstream (ts : List TickTrace) : List Nat :=
  (ts.filterMap TickTrace.informed_locations).flatten

/-! ## Marker structure analysis (memory_reader.py, lines 422-545) -/

/-- Little-endian byte-list decoding, as performed by
`int.from_bytes(..., byteorder="little")` and `struct.unpack("<I"/"<Q", ...)`
on the bytes read from process memory (each entry is one byte value). -/

def bytesToNatLE (bs : List Nat) : Nat :=
  bs.foldr (fun b acc => b + 256 * acc) 0

/-- The unsigned 64-bit little-endian value at `off` in a byte block. -/

def readU64LE (bs : List Nat) (off : Nat) : Nat :=
  bytesToNatLE ((bs.drop off).take 8)

/-- The unsigned 32-bit little-endian value at `off` in a byte block. -/

def readU32LE (bs : List Nat) (off : Nat) : Nat :=
  bytesToNatLE ((bs.drop off).take 4)

/-- Constant from line 457: `marker_length_in_cpp = 17`. -/

def marker_length_in_cpp : Nat := 17

/-- The padding values of the `padding_scenarios` list (lines 465-470):
no padding, 1-byte alignment, 4-byte alignment, 8-byte alignment, written
with the very alignment formulas of the source. -/

def padding_scenarios : List Nat :=
  [0, 1, (4 - marker_length_in_cpp % 4) % 4, (8 - marker_length_in_cpp % 8) % 8]

/-- One iteration of the scenario loop (lines 475-532): compute the pointer
offset, bounds-check it against the block read at the marker, read the 8-byte
little-endian trial pointer, require it non-null and at least `0x1000`,
dereference it through `deref` (modelling `read_bytes(pointer_value, 16)`,
`none` = raised exception), and accept when the leading 4-byte version field
equals `expected_memory_version`. -/

def try_padding (block : List Nat) (deref : Nat → Option (List Nat))
    (padding : Nat) : Option Nat :=
  if marker_length_in_cpp + padding + 8 ≤ block.length then
    if readU64LE block (marker_length_in_cpp + padding) ≠ 0 ∧
        4096 ≤ readU64LE block (marker_length_in_cpp + padding) then
      match deref (readU64LE block (marker_length_in_cpp + padding)) with
      | some test_read =>
        if 4 ≤ test_read.length ∧ readU32LE test_read 0 = expected_memory_version
        then some (readU64LE block (marker_length_in_cpp + padding))
        else none
      | none => none
    else none
  else none

/-- First-match loop over the padding scenarios. -/

def analyze_marker_go (block : List Nat) (deref : Nat → Option (List Nat)) :
    List Nat → Option Nat
  | [] => none
  | p :: ps =>
    match try_padding block deref p with
    | some a => some a
    | none => analyze_marker_go block deref ps

/-- Embeds `Jak2MemoryReader._analyze_marker_structure` (lines 422-545): the
scenarios are tried in their listed order; the first accepted trial pointer
becomes `goal_address` (`some`), and if no scenario matches the method
reports failure (`none`, lines 534-538) instead of raising. -/

def analyze_marker_structure (block : List Nat)
    (deref : Nat → Option (List Nat)) : Option Nat :=
  analyze_marker_go block deref padding_scenarios

/-! ## REPL transport (repl_client.py) -/

/-- Outcome of `self.writer.write(...)` / `await self.writer.drain()` (lines
288-289): `err` models a raised socket exception. -/

inductive WriteResult where
  | ok : WriteResult
  | err : WriteResult
deriving Repr, DecidableEq

/-- Outcome of `await asyncio.wait_for(self.reader.read(1024), timeout)`
(line 298): the raw received bytes (UTF-8 decoding happens afterwards, at
line 299), a timeout, or a raised socket exception. -/

inductive ReadResult where
  | data (bytes : List Nat) : ReadResult
  | timeout : ReadResult
  | err : ReadResult
deriving Repr, DecidableEq

/-- One step of strict UTF-8 decoding: given the lead byte `b0` and the
remaining bytes, returns the decoded code point and the bytes left over, or
`none` on an invalid or truncated sequence.  Implements the byte-class
table of RFC 3629 as Python's strict codec enforces it: stray lead or
continuation bytes, truncated sequences, overlong encodings (lead bytes
0xC0/0xC1, second-byte floors for 0xE0 and 0xF0), surrogates (0xED with
second byte above 0x9F) and values beyond U+10FFFF (leads above 0xF4 or
0xF4 with second byte above 0x8F) are all rejected. -/
def decodeUtf8Step (b0 : Nat) (rest : List Nat) : Option (Nat × List Nat) :=
  if b0 < 128 then some (b0, rest)
  else if 194 ≤ b0 ∧ b0 ≤ 223 then
    match rest with
    | b1 :: rest2 =>
      if 128 ≤ b1 ∧ b1 ≤ 191 then
        some ((b0 - 192) * 64 + (b1 - 128), rest2)
      else none
    | [] => none
  else if 224 ≤ b0 ∧ b0 ≤ 239 then
    match rest with
    | b1 :: b2 :: rest3 =>
      if (if b0 = 224 then 160 ≤ b1 ∧ b1 ≤ 191
          else if b0 = 237 then 128 ≤ b1 ∧ b1 ≤ 159
          else 128 ≤ b1 ∧ b1 ≤ 191) ∧ 128 ≤ b2 ∧ b2 ≤ 191 then
        some ((b0 - 224) * 4096 + (b1 - 128) * 64 + (b2 - 128), rest3)
      else none
    | _ => none
  else if 240 ≤ b0 ∧ b0 ≤ 244 then
    match rest with
    | b1 :: b2 :: b3 :: rest4 =>
      if (if b0 = 240 then 144 ≤ b1 ∧ b1 ≤ 191
          else if b0 = 244 then 128 ≤ b1 ∧ b1 ≤ 143
          else 128 ≤ b1 ∧ b1 ≤ 191) ∧
          128 ≤ b2 ∧ b2 ≤ 191 ∧ 128 ≤ b3 ∧ b3 ≤ 191 then
        some ((b0 - 240) * 262144 + (b1 - 128) * 4096
                + (b2 - 128) * 64 + (b3 - 128), rest4)
      else none
    | _ => none
  else none

/-- Fuel-bounded decoding loop: decodes code points until the bytes run
out.  Each step consumes at least the lead byte, so fuel equal to the byte
count never runs out before the input is exhausted (the fuel-0 non-empty
case is unreachable for such fuel and returns `none`). -/
def decodeUtf8Go : Nat → List Nat → Option (List Nat)
  | _, [] => some []
  | 0, _ :: _ => none
  | fuel + 1, b0 :: rest =>
    match decodeUtf8Step b0 rest with
    | some (cp, rest2) =>
      match decodeUtf8Go fuel rest2 with
      | some cps => some (cp :: cps)
      | none => none
    | none => none

/-- Strict UTF-8 decoding of a byte list into code points: the semantics of
Python's `bytes.decode()` at repl_client.py line 299 (default UTF-8 codec,
strict error handling); `none` models a raised `UnicodeDecodeError`. -/
def decodeUtf8 (bs : List Nat) : Option (List Nat) :=
  decodeUtf8Go bs.length bs

/-- Embeds the boolean result of `Jak2ReplClient.send_form` (lines 274-323):
not connected returns False; a raised write error is caught by the outer
handler and returns False; when no response is expected the send is assumed
successful; otherwise the read result is UTF-8-decoded (line 299) — a
decode failure propagates to the outer `except Exception` (lines 320-323)
and returns False — a non-empty decoded response returns True, an empty one
returns False, a timeout is treated as success, and a raised read error
returns False. -/
def send_form_result (connected expect_response : Bool) (w : WriteResult)
    (r : ReadResult) : Bool :=
  if connected = false then false
  else
    match w with
    | WriteResult.err => false
    | WriteResult.ok =>
      if expect_response = false then true
      else
        match r with
        | ReadResult.data bytes =>
          match decodeUtf8 bytes with
          | some response =>
            match response with
            | [] => false
            | _ :: _ => true
          | none => false
        | ReadResult.timeout => true
        | ReadResult.err => false

/-- Byte-wise little-endian encoding of a 32-bit field, as produced by
`struct.pack("<I", n)` for in-range `n`. -/

def natToLE32 (n : Nat) : List Nat :=
  [n % 256, n / 256 % 256, n / 65536 % 256, n / 16777216 % 256]

/-- UTF-8 encoding of one character (the semantics of Python's
`str.encode()`, the default UTF-8 codec). -/

def encodeCharUtf8 (c : Char) : List Nat :=
  let n := c.toNat
  if n < 128 then [n]
  else if n < 2048 then [192 + n / 64, 128 + n % 64]
  else if n < 65536 then [224 + n / 4096, 128 + n / 64 % 64, 128 + n % 64]
  else [240 + n / 262144, 128 + n / 4096 % 64, 128 + n / 64 % 64, 128 + n % 64]

/-- UTF-8 encoding of a whole string. -/

def encodeUtf8 (s : String) : List Nat :=
  (s.data.map encodeCharUtf8).flatten

/-- The bytes `send_form` writes to the socket (lines 283-288):
`struct.pack("<II", len(form), 10) + form.encode()`.  Note the first header
field packs `len(form)`, the number of characters of the Python string. -/

def send_form_wire (form : String) : List Nat :=
  natToLE32 form.length ++ natToLE32 10 ++ encodeUtf8 form

/-! ## Item dispatch (repl_client.py, lines 325-339) -/

/-- Result of one `send_items` drain: the items on which
`send_item_to_game` was invoked (in invocation order, paired with their
inbox index), the `items_sent` success counter, and the final
`inbox_index`. -/

structure SendItemsResult (β : Type) where
  attempted : List (Nat × β)
  items_sent : Nat
  final_index : Nat
deriving Repr, DecidableEq

/-- The `while self.inbox_index in self.item_inbox` loop of `send_items`,
with an explicit fuel argument bounding the iteration count.  Each iteration
looks up the item at the cursor, invokes the send (whose transport-reported
success is supplied by the `send_ok` oracle and only counted, line 334-335),
and advances the cursor unconditionally (line 336).  Every iteration
consumes a distinct key of the inbox (the cursor strictly increases), so for
an inbox with distinct keys — a Python dict — `inbox.length + 1` fuel never
runs out before the loop condition fails. -/

def send_items_go {β : Type} (inbox : List (Nat × β)) (send_ok : Nat → Bool) :
    Nat → Nat → Nat → SendItemsResult β
  | 0, idx, cnt => ⟨[], cnt, idx⟩
  | fuel + 1, idx, cnt =>
    match inbox.lookup idx with
    | some item =>
      let cnt2 := if send_ok idx then cnt + 1 else cnt
      let r := send_items_go inbox send_ok fuel (idx + 1) cnt2
      ⟨(idx, item) :: r.attempted, r.items_sent, r.final_index⟩
    | none => ⟨[], cnt, idx⟩

/-- Embeds `Jak2ReplClient.send_items` (lines 325-339), run from cursor
`inbox_index` over the inbox `item_inbox` modelled as an association list
with distinct keys. -/

def send_items {β : Type} (item_inbox : List (Nat × β)) (send_ok : Nat → Bool)
    (inbox_index : Nat) : SendItemsResult β :=
  send_items_go item_inbox send_ok (item_inbox.length + 1) inbox_index 0

/-! ## The outbox cursor invariant -/

/-- The true half of the claimed cursor property: the cursor never exceeds
the outbox length, and every outbox entry strictly below the cursor has
already been handed to `inform_checked_location`. -/

def cursor_inv (s : MemoryReaderState) (reported : List Nat) : Prop :=
  s.outbox_index ≤ s.location_outbox.length ∧
  ∀ i x, i < s.outbox_index → s.location_outbox[i]? = some x → x ∈ reported

/-! ## Concrete fixtures used by the claim theorems -/

/-- A freshly connected reader: empty outbox, cursor 0, game not finished,
connected, no pending reconnect request, block resolved at address 0. -/

def freshReader : MemoryReaderState :=
  ⟨[], 0, false, true, false, some 0⟩

/-- A snapshot whose main-mission array holds the single raw id 6
(translated LocationId 1). -/

def snapshotRaw6 : GameSnapshot := ⟨1, 0, fun _ => 6, fun _ => 0⟩

/-- A snapshot whose main-mission array holds the single raw id 70
(the final-boss marker, translated LocationId 65). -/

def snapshotRaw70 : GameSnapshot := ⟨1, 0, fun _ => 70, fun _ => 0⟩

/-- A snapshot with two completed main missions, raw ids 6 and 7. -/

def snapshotTwoMissions : GameSnapshot :=
  ⟨2, 0, fun i => if i = 0 then 6 else 7, fun _ => 0⟩

/-- A steady-state poll tick over `snapshotTwoMissions`: no reconnect
request pending, liveness probe succeeds, all reads succeed. -/

def pollTickTwoMissions : TickInputs := ⟨(false, none), true, false, snapshotTwoMissions⟩

/-- A steady-state poll tick in which the liveness probe succeeds but the
first read inside `read_memory` raises a memory-read error. -/

def scanFailTick : TickInputs := ⟨(false, none), true, true, snapshotTwoMissions⟩

/-- A synthetic 32-byte block as read at a found marker: 17 marker bytes,
then 3 bytes of alignment padding, then the little-endian pointer 8192
(0x2000) at offset 20. -/

def witnessBlock : List Nat := List.replicate 21 0 ++ [32] ++ List.replicate 10 0

/-- Process memory around the synthetic block: dereferencing 8192 yields a
16-byte read whose leading 4-byte version field is 2; every other
dereference fails. -/

def witnessDeref : Nat → Option (List Nat) :=
  fun a => if a = 8192 then some ([2] ++ List.replicate 15 0) else none

/-- A reader that has already observed the terminal identifier. -/

def finishedReader : MemoryReaderState := ⟨[65], 1, true, true, false, some 0⟩

/-- A steady-state poll tick whose liveness probe fails. -/

def pingFailTick : TickInputs := ⟨(false, none), false, false, snapshotTwoMissions⟩

/-! ## Properties -/

/-! Helper lemmas about `define`. -/

theorem define_fst_mod (f : OffsetFactory) (size length : Nat) (hs : 0 < size) :
    (f.define size length).1 % size = 0 := by
  show (if f.current_offset % size = 0 then f.current_offset
      else f.current_offset + (size - f.current_offset % size)) % size = 0
  by_cases h : f.current_offset % size = 0
  · rw [if_pos h]; exact h
  · rw [if_neg h]
    have hd := Nat.mod_add_div f.current_offset size
    have hlt := Nat.mod_lt f.current_offset hs
    have he : f.current_offset + (size - f.current_offset % size)
        = size * (f.current_offset / size + 1) := by
      rw [Nat.mul_succ]; omega
    rw [he]
    exact Nat.mul_mod_right size _

theorem define_fst_ge (f : OffsetFactory) (size length : Nat) :
    f.current_offset ≤ (f.define size length).1 := by
  unfold OffsetFactory.define
  by_cases h : f.current_offset % size = 0 <;> simp [h]

theorem define_fst_lt (f : OffsetFactory) (size length : Nat) (hs : 0 < size) :
    (f.define size length).1 < f.current_offset + size := by
  unfold OffsetFactory.define
  by_cases h : f.current_offset % size = 0 <;> simp only [h, ite_true, ite_false]
  · omega
  · have hlt := Nat.mod_lt f.current_offset hs
    omega

theorem define_snd_cursor (f : OffsetFactory) (size length : Nat) :
    (f.define size length).2.current_offset = (f.define size length).1 + size * length := by
  unfold OffsetFactory.define
  by_cases h : f.current_offset % size = 0 <;> simp [h]

theorem define_cursor_ge (f : OffsetFactory) (size length : Nat) :
    f.current_offset ≤ (f.define size length).2.current_offset := by
  have h1 := define_fst_ge f size length
  have h2 := define_snd_cursor f size length
  omega

/-- Every offset handed out by a declaration sequence is at least the starting
cursor (provided all declared sizes are positive). -/

theorem defineSeq_offsets_ge (decls : List (Nat × Nat)) :
    ∀ (f : OffsetFactory), ∀ off ∈ (defineSeq f decls).1, f.current_offset ≤ off := by
  induction decls with
  | nil => intro f off h; simp [defineSeq] at h
  | cons d rest ih =>
    intro f off h
    obtain ⟨s, l⟩ := d
    simp only [defineSeq, List.mem_cons] at h
    rcases h with h | h
    · subst h; exact define_fst_ge f s l
    · have h1 := ih (f.define s l).2 off h
      have h2 := define_cursor_ge f s l
      omega

theorem defineSeq_chain (decls : List (Nat × Nat)) :
    ∀ (f : OffsetFactory), List.Chain' (· ≤ ·) (defineSeq f decls).1 := by
  induction decls with
  | nil => intro f; simp [defineSeq]
  | cons d rest ih =>
    intro f
    obtain ⟨s, l⟩ := d
    simp only [defineSeq]
    apply List.chain'_cons'.mpr
    constructor
    · intro y hy
      have hmem : y ∈ (defineSeq (f.define s l).2 rest).1 := List.mem_of_mem_head? hy
      have h1 := defineSeq_offsets_ge rest (f.define s l).2 y hmem
      have h2 := define_snd_cursor f s l
      omega
    · exact ih (f.define s l).2

theorem defineSeq_mod (decls : List (Nat × Nat)) :
    ∀ (f : OffsetFactory), (∀ d ∈ decls, 0 < d.1) →
      ∀ p ∈ decls.zip (defineSeq f decls).1, p.2 % p.1.1 = 0 := by
  induction decls with
  | nil => intro f _ p hp; simp at hp
  | cons d rest ih =>
    intro f hpos p hp
    obtain ⟨s, l⟩ := d
    simp only [defineSeq, List.zip_cons_cons, List.mem_cons] at hp
    rcases hp with hp | hp
    · subst hp
      exact define_fst_mod f s l (hpos (s, l) (List.mem_cons_self _ _))
    · exact ih (f.define s l).2 (fun d hd => hpos d (List.mem_cons_of_mem _ hd)) p hp

/-! ## Helper lemmas about `read_memory`, `main_tick` and `run_ticks` -/

theorem read_memory_finished_eq (s : MemoryReaderState) (g : GameSnapshot) :
    (read_memory s g).finished_game
      = if 70 ∈ main_raws g then true else s.finished_game := rfl

theorem read_memory_outbox_eq (s : MemoryReaderState) (g : GameSnapshot) :
    (read_memory s g).location_outbox
      = (side_raws g).foldl processSideMission
          ((main_raws g).foldl processMainMission s.location_outbox) := rfl

theorem read_memory_index_eq (s : MemoryReaderState) (g : GameSnapshot) :
    (read_memory s g).outbox_index = s.outbox_index := rfl

theorem read_memory_connected_eq (s : MemoryReaderState) (g : GameSnapshot) :
    (read_memory s g).connected = s.connected := rfl

theorem processMainMission_extends (outbox : List Nat) (raw : Nat) :
    ∃ e, processMainMission outbox raw = outbox ++ e := by
  unfold processMainMission
  by_cases h : raw ∈ outbox
  · exact ⟨[], by simp [h]⟩
  · cases hl : GAME_TASK_TO_MISSION_ID.lookup raw with
    | none => exact ⟨[], by simp [h, hl]⟩
    | some m =>
      by_cases hm : m ∈ main_mission_table_keys
      · exact ⟨[m], by simp [h, hl, hm]⟩
      · exact ⟨[], by simp [h, hl, hm]⟩

theorem processSideMission_extends (outbox : List Nat) (raw : Nat) :
    ∃ e, processSideMission outbox raw = outbox ++ e := by
  unfold processSideMission
  by_cases h : raw ∈ outbox
  · exact ⟨[], by simp [h]⟩
  · by_cases hm : raw ∈ side_mission_table_keys
    · exact ⟨[raw + 100], by simp [h, hm]⟩
    · exact ⟨[], by simp [h, hm]⟩

theorem foldl_extends {step : List Nat → Nat → List Nat}
    (hstep : ∀ o r, ∃ e, step o r = o ++ e) :
    ∀ (l : List Nat) (o : List Nat), ∃ e, l.foldl step o = o ++ e := by
  intro l
  induction l with
  | nil => intro o; exact ⟨[], by simp⟩
  | cons r rest ih =>
    intro o
    obtain ⟨e1, he1⟩ := hstep o r
    obtain ⟨e2, he2⟩ := ih (step o r)
    exact ⟨e1 ++ e2, by rw [List.foldl_cons, he2, he1, List.append_assoc]⟩

/-- The outbox is append-only across one poll. -/

theorem read_memory_outbox_extends (s : MemoryReaderState) (g : GameSnapshot) :
    ∃ e, (read_memory s g).location_outbox = s.location_outbox ++ e := by
  rw [read_memory_outbox_eq]
  obtain ⟨e1, he1⟩ := foldl_extends processMainMission_extends (main_raws g) s.location_outbox
  obtain ⟨e2, he2⟩ := foldl_extends processSideMission_extends (side_raws g)
    ((main_raws g).foldl processMainMission s.location_outbox)
  exact ⟨e1 ++ e2, by rw [he2, he1, List.append_assoc]⟩

theorem tick_connect_phase_skip (s : MemoryReaderState) (inp : TickInputs)
    (hi : s.initiated_connect = false) : tick_connect_phase s inp = s := by
  unfold tick_connect_phase
  rw [hi]
  rfl

/-- A disconnected poller with no pending reconnect request is inert for one
tick: nothing is read, nothing is reported, the state does not change. -/

theorem main_tick_not_connected (s : MemoryReaderState) (inp : TickInputs)
    (hc : s.connected = false) (hi : s.initiated_connect = false) :
    main_tick s inp = (s, emptyTrace) := by
  unfold main_tick
  rw [tick_connect_phase_skip s inp hi, hc]
  rfl

theorem run_ticks_fst_cons (s : MemoryReaderState) (inp : TickInputs)
    (rest : List TickInputs) :
    run_ticks s (inp :: rest) = ((run_ticks (main_tick s inp).1 rest).1,
      (main_tick s inp).2 :: (run_ticks (main_tick s inp).1 rest).2) := rfl

/-- A disconnected poller with no pending reconnect request stays inert over
any sequence of ticks. -/

theorem run_ticks_not_connected (inps : List TickInputs) (s : MemoryReaderState)
    (hc : s.connected = false) (hi : s.initiated_connect = false) :
    (run_ticks s inps).1 = s ∧ ∀ t ∈ (run_ticks s inps).2, t = emptyTrace := by
  induction inps with
  | nil => exact ⟨rfl, by intro t ht; simp [run_ticks] at ht⟩
  | cons inp rest ih =>
    simp only [run_ticks, main_tick_not_connected s inp hc hi]
    exact ⟨ih.1, by
      intro t ht
      simp only [List.mem_cons] at ht
      rcases ht with ht | ht
      · exact ht
      · exact ih.2 t ht⟩

theorem read_memory_finished_mono (s : MemoryReaderState) (g : GameSnapshot)
    (h : s.finished_game = true) : (read_memory s g).finished_game = true := by
  rw [read_memory_finished_eq]
  split
  · rfl
  · exact h

theorem tick_connect_phase_finished (s : MemoryReaderState) (inp : TickInputs) :
    (tick_connect_phase s inp).finished_game = s.finished_game := by
  unfold tick_connect_phase
  split <;> rfl

theorem read_memory_checked_finished_mono (s : MemoryReaderState)
    (inp : TickInputs) (h : s.finished_game = true) :
    (read_memory_checked s inp).1.finished_game = true := by
  unfold read_memory_checked
  split
  · exact h
  · exact read_memory_finished_mono s inp.snapshot h

theorem tick_poll_phase_finished_mono (s0 : MemoryReaderState) (inp : TickInputs)
    (h : s0.finished_game = true) : (tick_poll_phase s0 inp).1.finished_game = true := by
  unfold tick_poll_phase
  have h2 := read_memory_checked_finished_mono s0 inp h
  split
  · split
    · exact h2
    · exact h2
  · exact h

theorem main_tick_finished_mono (s : MemoryReaderState) (inp : TickInputs)
    (h : s.finished_game = true) : (main_tick s inp).1.finished_game = true := by
  unfold main_tick
  have h0 : (tick_connect_phase s inp).finished_game = true := by
    rw [tick_connect_phase_finished]; exact h
  split
  · exact tick_poll_phase_finished_mono _ inp h0
  · exact h0

theorem run_ticks_finished_mono (inps : List TickInputs) (s : MemoryReaderState)
    (h : s.finished_game = true) : (run_ticks s inps).1.finished_game = true := by
  induction inps generalizing s with
  | nil => exact h
  | cons inp rest ih => exact ih (main_tick s inp).1 (main_tick_finished_mono s inp h)

theorem tick_connect_phase_initiated (s : MemoryReaderState) (inp : TickInputs)
    (hi : s.initiated_connect = false) :
    (tick_connect_phase s inp).initiated_connect = false := by
  unfold tick_connect_phase
  split
  · rfl
  · exact hi

theorem read_memory_checked_initiated (s : MemoryReaderState) (inp : TickInputs) :
    (read_memory_checked s inp).1.initiated_connect = s.initiated_connect := by
  unfold read_memory_checked
  split <;> rfl

theorem tick_poll_phase_initiated (s0 : MemoryReaderState) (inp : TickInputs) :
    (tick_poll_phase s0 inp).1.initiated_connect = s0.initiated_connect := by
  unfold tick_poll_phase
  have h2 := read_memory_checked_initiated s0 inp
  split
  · split
    · exact h2
    · exact h2
  · rfl

theorem main_tick_initiated_false (s : MemoryReaderState) (inp : TickInputs)
    (hi : s.initiated_connect = false) :
    (main_tick s inp).1.initiated_connect = false := by
  unfold main_tick
  have h0 := tick_connect_phase_initiated s inp hi
  split
  · rw [tick_poll_phase_initiated]; exact h0
  · exact h0

theorem cursor_inv_read_memory (s : MemoryReaderState) (rep : List Nat)
    (g : GameSnapshot) (h : cursor_inv s rep) : cursor_inv (read_memory s g) rep := by
  obtain ⟨e, he⟩ := read_memory_outbox_extends s g
  constructor
  · rw [read_memory_index_eq, he, List.length_append]
    have := h.1
    omega
  · intro i x hi hx
    rw [read_memory_index_eq] at hi
    rw [he, List.getElem?_append_left (by have := h.1; omega)] at hx
    exact h.2 i x hi hx

theorem cursor_inv_connect_phase (s : MemoryReaderState) (inp : TickInputs)
    (rep : List Nat) (h : cursor_inv s rep) :
    cursor_inv (tick_connect_phase s inp) rep := by
  unfold tick_connect_phase
  split
  · exact h
  · exact h

theorem cursor_inv_read_checked (s : MemoryReaderState) (inp : TickInputs)
    (rep : List Nat) (h : cursor_inv s rep) :
    cursor_inv (read_memory_checked s inp).1 rep := by
  unfold read_memory_checked
  split
  · exact h
  · exact cursor_inv_read_memory s rep inp.snapshot h

theorem main_tick_cursor_inv (s : MemoryReaderState) (rep : List Nat)
    (inp : TickInputs) (h : cursor_inv s rep) :
    cursor_inv (main_tick s inp).1
      (rep ++ (main_tick s inp).2.informed_locations.getD []) := by
  have h0 := cursor_inv_connect_phase s inp rep h
  unfold main_tick
  split
  · unfold tick_poll_phase
    split
    · have h2 := cursor_inv_read_checked (tick_connect_phase s inp) inp rep h0
      split
      · rename_i hlt
        refine ⟨by simpa using hlt, ?_⟩
        intro i x hi hx
        simp only [Option.getD_some]
        apply List.mem_append_right
        simp only at hx
        exact List.getElem?_mem hx
      · simpa using h2
    · simpa using h0
  · simpa [emptyTrace] using h0

theorem reported_upstream_cons (t : TickTrace) (ts : List TickTrace) :
    reported_upstream (t :: ts)
      = t.informed_locations.getD [] ++ reported_upstream ts := by
  unfold reported_upstream
  cases h : t.informed_locations <;> simp [List.filterMap_cons, h]

theorem run_ticks_cursor_inv (inps : List TickInputs) :
    ∀ (s : MemoryReaderState) (rep : List Nat), cursor_inv s rep →
      cursor_inv (run_ticks s inps).1
        (rep ++ reported_upstream (run_ticks s inps).2) := by
  induction inps with
  | nil =>
    intro s rep h
    simpa [run_ticks, reported_upstream] using h
  | cons inp rest ih =>
    intro s rep h
    rw [run_ticks_fst_cons]
    have h2 := ih (main_tick s inp).1
      (rep ++ (main_tick s inp).2.informed_locations.getD [])
      (main_tick_cursor_inv s rep inp h)
    simp only [reported_upstream_cons, ← List.append_assoc]
    exact h2

/-! ## Claim theorems -/

/-- C1 (code_bug): the claim states that the location outbox never contains
a duplicate LocationId and that re-polling unchanged game data appends
nothing.  The code violates it: the dedup test of read_memory line 1017
checks the raw game-task id against an outbox that stores translated
LocationIds, so polling the snapshot holding raw id 6 (LocationId 1) twice
appends LocationId 1 twice. -/

theorem claim1_outbox_duplicate_failing_input :
    (read_memory (read_memory freshReader snapshotRaw6) snapshotRaw6).location_outbox
      = [1, 1] ∧
    ¬ List.Nodup
        (read_memory (read_memory freshReader snapshotRaw6) snapshotRaw6).location_outbox := by
  constructor
  · decide
  · decide

/-- C3: `OffsetFactory.define(size, length)` returns the running cursor
padded up to the next multiple of `size` (the returned offset is a multiple
of `size`, at least the old cursor, and less than one `size` beyond it) and
advances the cursor by `size * length`; over any declaration sequence with
positive sizes the returned offsets are non-decreasing and each is a
multiple of its primitive size; and the declaration sequence
`(4,1),(8,1),(8,1),(4,70),(4,24),(1,4)` deterministically yields total size
404. -/

theorem claim3_offset_factory_define_spec :
    (∀ (f : OffsetFactory) (size length : Nat), 0 < size →
       (f.define size length).1 % size = 0 ∧
       f.current_offset ≤ (f.define size length).1 ∧
       (f.define size length).1 < f.current_offset + size ∧
       (f.define size length).2.current_offset
         = (f.define size length).1 + size * length) ∧
    (∀ (f : OffsetFactory) (decls : List (Nat × Nat)), (∀ d ∈ decls, 0 < d.1) →
       List.Chain' (· ≤ ·) (defineSeq f decls).1 ∧
       ∀ p ∈ decls.zip (defineSeq f decls).1, p.2 % p.1.1 = 0) ∧
    (defineSeq ⟨0⟩ claimDeclSeq).2.current_offset = 404 := by
  refine ⟨?_, ?_, by decide⟩
  · intro f size length hs
    exact ⟨define_fst_mod f size length hs, define_fst_ge f size length,
           define_fst_lt f size length hs, define_snd_cursor f size length⟩
  · intro f decls hpos
    exact ⟨defineSeq_chain decls f, defineSeq_mod decls f hpos⟩

/-- Witness for C3, instantiated at a misaligned cursor and at the claimed
declaration sequence. -/

theorem claim3_offset_factory_define_spec_witness :
    ((0 < 8) ∧
      (((⟨4⟩ : OffsetFactory).define 8 1).1 % 8 = 0 ∧
       (⟨4⟩ : OffsetFactory).current_offset ≤ ((⟨4⟩ : OffsetFactory).define 8 1).1 ∧
       ((⟨4⟩ : OffsetFactory).define 8 1).1 < (⟨4⟩ : OffsetFactory).current_offset + 8 ∧
       ((⟨4⟩ : OffsetFactory).define 8 1).2.current_offset
         = ((⟨4⟩ : OffsetFactory).define 8 1).1 + 8 * 1)) ∧
    ((∀ d ∈ claimDeclSeq, 0 < d.1) ∧
      (List.Chain' (· ≤ ·) (defineSeq ⟨0⟩ claimDeclSeq).1 ∧
       ∀ p ∈ claimDeclSeq.zip (defineSeq ⟨0⟩ claimDeclSeq).1, p.2 % p.1.1 = 0)) :=
  ⟨⟨by decide, claim3_offset_factory_define_spec.1 ⟨4⟩ 8 1 (by decide)⟩,
   ⟨by decide, claim3_offset_factory_define_spec.2.1 ⟨0⟩ claimDeclSeq (by decide)⟩⟩

/-- C2: with the inbox holding exactly the indices 0, 1, 2 and 4 and the
cursor at 0, one `send_items` drain attempts exactly the items at indices
0, 1, 2 in that order and leaves the cursor at 3, for every possible
transport-reported outcome of the individual sends; a further drain without
index 3 sends nothing; and once index 3 is enqueued the next drain delivers
indices 3 and 4 in order. -/

theorem claim2_send_items_order {β : Type} (a b c e : β) (send_ok : Nat → Bool) :
    (send_items [(0, a), (1, b), (2, c), (4, e)] send_ok 0).attempted
      = [(0, a), (1, b), (2, c)] ∧
    (send_items [(0, a), (1, b), (2, c), (4, e)] send_ok 0).final_index = 3 ∧
    (send_items [(0, a), (1, b), (2, c), (4, e)] send_ok 3).attempted = [] ∧
    (send_items [(0, a), (1, b), (2, c), (4, e)] send_ok 3).final_index = 3 ∧
    ∀ d : β,
      (send_items ([(0, a), (1, b), (2, c), (4, e)] ++ [(3, d)]) send_ok 3).attempted
        = [(3, d), (4, e)] ∧
      (send_items ([(0, a), (1, b), (2, c), (4, e)] ++ [(3, d)]) send_ok 3).final_index
        = 5 :=
  ⟨rfl, rfl, rfl, rfl, fun _ => ⟨rfl, rfl⟩⟩

/-- Decoding a non-empty byte list never yields the empty string: every
branch of `decodeUtf8` on a cons either fails or emits a code point. -/
theorem decodeUtf8_cons_ne_some_nil (b : Nat) (rest : List Nat) :
    decodeUtf8 (b :: rest) ≠ some [] := by
  intro h
  unfold decodeUtf8 at h
  rw [List.length_cons] at h
  simp only [decodeUtf8Go] at h
  repeat' split at h
  all_goals
    first
      | exact Option.noConfusion h
      | (injection h with h2; exact List.noConfusion h2)

/-- C4 (corrected, counterexample): the claim treats every non-empty read
as a success, but the source decodes the bytes first
(`response_data.decode()`, repl_client.py line 299) and a
`UnicodeDecodeError` — reachable because `read(1024)` can truncate a
response mid-character, or the peer can emit non-UTF-8 bytes — falls to the
outer handler and returns False: the non-empty read `[255]` (a stray
continuation-range byte) makes `send_form` fail while the claim predicts
success. -/
theorem claim4_send_form_success_cex :
    ¬ (send_form_result true true WriteResult.ok (ReadResult.data [255]) = true ↔
        WriteResult.ok = WriteResult.ok ∧
          (ReadResult.data ([255] : List Nat) = ReadResult.timeout ∨
           ∃ bs, bs ≠ [] ∧
             ReadResult.data ([255] : List Nat) = ReadResult.data bs)) := by
  intro h
  have hfalse : send_form_result true true WriteResult.ok (ReadResult.data [255])
      = true :=
    h.mpr ⟨rfl, Or.inr ⟨[255], by decide, rfl⟩⟩
  exact absurd hfalse (by decide)

/-- C4 (corrected, amended): while connected and expecting a response,
`send_form` reports success exactly when the write goes through and the
read either times out or returns non-empty data that UTF-8-decodes; it
reports failure exactly when a socket-level error occurs on the write or
the read, or the read completes with empty data, or the received data fails
UTF-8 decoding (the `UnicodeDecodeError` of line 299 is absorbed by the
outer handler of lines 320-323). -/
theorem claim4_send_form_success_iff (w : WriteResult) (r : ReadResult) :
    (send_form_result true true w r = true ↔
       w = WriteResult.ok ∧
         (r = ReadResult.timeout ∨
          ∃ bs, bs ≠ [] ∧ (∃ cps, decodeUtf8 bs = some cps) ∧
            r = ReadResult.data bs)) ∧
    (send_form_result true true w r = false ↔
       w = WriteResult.err ∨
         (w = WriteResult.ok ∧
           (r = ReadResult.err ∨
            ∃ bs, (bs = [] ∨ decodeUtf8 bs = none) ∧
              r = ReadResult.data bs))) := by
  cases w with
  | err => cases r <;> simp [send_form_result]
  | ok =>
    cases r with
    | data bytes =>
      cases hdec : decodeUtf8 bytes with
      | none =>
        cases bytes with
        | nil => simp [decodeUtf8, decodeUtf8Go] at hdec
        | cons b tl => simp [send_form_result, hdec]
      | some cps =>
        cases cps with
        | nil =>
          cases bytes with
          | nil => simp [send_form_result, decodeUtf8, decodeUtf8Go]
          | cons b tl => exact absurd hdec (decodeUtf8_cons_ne_some_nil b tl)
        | cons c cs =>
          cases bytes with
          | nil => simp [decodeUtf8, decodeUtf8Go] at hdec
          | cons b tl => simp [send_form_result, hdec]
    | timeout => simp [send_form_result]
    | err => simp [send_form_result]

/-- An ASCII character encodes to the single byte of its code point. -/

theorem encodeCharUtf8_ascii (ch : Char) (h : ch.toNat < 128) :
    encodeCharUtf8 ch = [ch.toNat] := by
  unfold encodeCharUtf8
  rw [if_pos h]

theorem encodeUtf8_length_aux (l : List Char) (h : ∀ ch ∈ l, ch.toNat < 128) :
    ((l.map encodeCharUtf8).flatten).length = l.length := by
  induction l with
  | nil => rfl
  | cons ch rest ih =>
    simp only [List.map_cons, List.flatten_cons, List.length_append, List.length_cons]
    rw [encodeCharUtf8_ascii ch (h ch (by simp)),
        ih (fun c hc => h c (by simp [hc]))]
    simp only [List.length_singleton]
    omega

/-- For ASCII-only strings the UTF-8 byte length equals the character
count. -/

theorem encodeUtf8_length_ascii (s : String)
    (h : ∀ ch ∈ s.data, ch.toNat < 128) :
    (encodeUtf8 s).length = s.length :=
  encodeUtf8_length_aux s.data h

/-- C5 (corrected, counterexample): as stated the claim fails, because the
first header field packs `len(form)` — the number of characters — not the
byte length of the UTF-8 payload: for the one-character command "é" the
header says 1 while the payload is 2 bytes long. -/

theorem claim5_wire_header_cex :
    send_form_wire "é"
      ≠ natToLE32 (encodeUtf8 "é").length ++ natToLE32 10 ++ encodeUtf8 "é" := by
  decide

/-- C5 (corrected, amended): for every ASCII command string within the
packable 32-bit range, `send_form` transmits the 8-byte little-endian header
whose first uint32 field equals the byte length of the UTF-8 payload that
follows (here equal to the character count) and whose second field equals
10, immediately followed by the UTF-8-encoded payload. -/

theorem claim5_wire_header_ascii (form : String)
    (hascii : ∀ ch ∈ form.data, ch.toNat < 128)
    (_hlen : form.length < 4294967296) :
    send_form_wire form
      = natToLE32 (encodeUtf8 form).length ++ natToLE32 10 ++ encodeUtf8 form := by
  unfold send_form_wire
  rw [encodeUtf8_length_ascii form hascii]

/-- Witness for C5, at the first real bootstrap command of the source. -/

theorem claim5_wire_header_ascii_witness :
    (∀ ch ∈ ("(lt)" : String).data, ch.toNat < 128) ∧
    ("(lt)" : String).length < 4294967296 ∧
    send_form_wire "(lt)"
      = natToLE32 (encodeUtf8 "(lt)").length ++ natToLE32 10 ++ encodeUtf8 "(lt)" :=
  ⟨by decide, by decide, claim5_wire_header_ascii "(lt)" (by decide) (by decide)⟩

/-- C6: on reading a block version different from the expected constant 2,
`verify_memory_version` logs the diagnostic carrying both the expected and
the found version, leaves the reader disconnected, and no subsequent tick
invokes `read_memory` (nor reports anything) until an external reconnect
request flips `initiated_connect`. -/

theorem claim6_version_mismatch_refuses (s : MemoryReaderState) (a v : Nat)
    (hi : s.initiated_connect = false) (hv : v ≠ expected_memory_version) :
    (verify_memory_version { s with goal_address := some a } (some v)).1.connected
      = false ∧
    (verify_memory_version { s with goal_address := some a } (some v)).2
      = [LogEvent.versionMismatch expected_memory_version v] ∧
    ∀ inps : List TickInputs,
      (run_ticks (verify_memory_version { s with goal_address := some a }
          (some v)).1 inps).1
        = (verify_memory_version { s with goal_address := some a } (some v)).1 ∧
      ∀ t ∈ (run_ticks (verify_memory_version { s with goal_address := some a }
          (some v)).1 inps).2,
        t.read_memory_invoked = false := by
  have hverify : verify_memory_version { s with goal_address := some a } (some v)
      = ({ s with goal_address := some a, connected := false },
         [LogEvent.versionMismatch expected_memory_version v]) := by
    unfold verify_memory_version
    dsimp only
    rw [if_neg hv]
  refine ⟨by rw [hverify], by rw [hverify], ?_⟩
  intro inps
  rw [hverify]
  have hrun := run_ticks_not_connected inps
    { s with goal_address := some a, connected := false } rfl hi
  exact ⟨hrun.1, fun t ht => by rw [hrun.2 t ht]; rfl⟩

/-- Witness for C6: a reader with a resolved block whose version field reads
1 instead of 2. -/

theorem claim6_version_mismatch_refuses_witness :
    (⟨[], 0, false, false, false, none⟩ : MemoryReaderState).initiated_connect
      = false ∧
    (1 : Nat) ≠ expected_memory_version ∧
    (verify_memory_version
        { (⟨[], 0, false, false, false, none⟩ : MemoryReaderState) with
          goal_address := some 0 } (some 1)).1.connected = false :=
  ⟨rfl, by decide,
   (claim6_version_mismatch_refuses ⟨[], 0, false, false, false, none⟩ 0 1 rfl
     (by decide)).1⟩

/-- C7: pointer resolution tries the padding hypotheses 0, 1, 4-byte and
8-byte alignment in that order past the 17-byte marker array (pointer
offsets 17, 18, 20, 24); a scenario is accepted only if its 8-byte
little-endian trial pointer dereferences to a block whose leading 4-byte
version field equals the expected constant; the result is the first
accepted scenario's pointer, and when every dereference yields a version
different from the constant, resolution returns `none` instead of
crashing. -/

theorem claim7_marker_resolution_spec :
    (padding_scenarios.map (fun p => marker_length_in_cpp + p) = [17, 18, 20, 24]) ∧
    (∀ (block : List Nat) (deref : Nat → Option (List Nat)) (padding p : Nat),
       try_padding block deref padding = some p →
       p = readU64LE block (marker_length_in_cpp + padding) ∧
       ∃ bs, deref p = some bs ∧ readU32LE bs 0 = expected_memory_version) ∧
    (∀ (block : List Nat) (deref : Nat → Option (List Nat)) (p : Nat),
       analyze_marker_structure block deref = some p ↔
         (try_padding block deref 0 = some p ∨
          (try_padding block deref 0 = none ∧ try_padding block deref 1 = some p) ∨
          (try_padding block deref 0 = none ∧ try_padding block deref 1 = none ∧
            try_padding block deref 3 = some p) ∨
          (try_padding block deref 0 = none ∧ try_padding block deref 1 = none ∧
            try_padding block deref 3 = none ∧ try_padding block deref 7 = some p))) ∧
    (∀ (block : List Nat) (deref : Nat → Option (List Nat)),
       (∀ a bs, deref a = some bs → readU32LE bs 0 ≠ expected_memory_version) →
       analyze_marker_structure block deref = none) := by
  refine ⟨by decide, ?_, ?_, ?_⟩
  · intro block deref padding p hp
    unfold try_padding at hp
    split at hp
    · split at hp
      · cases hd : deref (readU64LE block (marker_length_in_cpp + padding)) with
        | none => simp [hd] at hp
        | some bs =>
          simp only [hd] at hp
          split at hp
          · rename_i hcond
            have hpv : readU64LE block (marker_length_in_cpp + padding) = p :=
              Option.some.inj hp
            refine ⟨hpv.symm, bs, ?_, hcond.2⟩
            rw [hpv] at hd
            exact hd
          · exact absurd hp (by simp)
      · exact absurd hp (by simp)
    · exact absurd hp (by simp)
  · intro block deref p
    have hps : padding_scenarios = [0, 1, 3, 7] := by decide
    show analyze_marker_go block deref padding_scenarios = some p ↔ _
    rw [hps]
    cases h0 : try_padding block deref 0 <;>
      cases h1 : try_padding block deref 1 <;>
        cases h3 : try_padding block deref 3 <;>
          cases h7 : try_padding block deref 7 <;>
            simp [analyze_marker_go, h0, h1, h3, h7]
  · intro block deref hbad
    have hnone : ∀ padding, try_padding block deref padding = none := by
      intro padding
      unfold try_padding
      split
      · split
        · cases hd : deref (readU64LE block (marker_length_in_cpp + padding)) with
          | none => simp [hd]
          | some bs =>
            have hne := hbad _ bs hd
            simp only [hd]
            rw [if_neg (fun hc => hne hc.2)]
        · rfl
      · rfl
    show analyze_marker_go block deref padding_scenarios = none
    have hps : padding_scenarios = [0, 1, 3, 7] := by decide
    rw [hps]
    simp [analyze_marker_go, hnone]

/-- Witness for C7: on the synthetic block the trial pointers of the 0- and
1-padding hypotheses fail to dereference, so the 4-byte-alignment
hypothesis (pointer offset 20) is the first accepted and resolution yields
the stored pointer 8192. -/

theorem claim7_marker_resolution_spec_witness :
    try_padding witnessBlock witnessDeref 0 = none ∧
    try_padding witnessBlock witnessDeref 1 = none ∧
    try_padding witnessBlock witnessDeref 3 = some 8192 ∧
    analyze_marker_structure witnessBlock witnessDeref = some 8192 :=
  ⟨by decide, by decide, by decide,
   (claim7_marker_resolution_spec.2.2.1 witnessBlock witnessDeref 8192).mpr
     (Or.inr (Or.inr (Or.inl ⟨by decide, by decide, by decide⟩)))⟩

/-- C8: the identifier mapping sends raw main-mission id 70 to LocationId
65; a poll whose scanned main-mission entries contain raw id 70 sets
`finished_game`; and once set the flag survives every further
`read_memory`, every `main_tick` (with any connect outcome, probe result or
snapshot, including snapshots no longer containing id 70) and every tick
sequence. -/

theorem claim8_finished_game_latch :
    GAME_TASK_TO_MISSION_ID.lookup 70 = some 65 ∧
    (∀ (s : MemoryReaderState) (g : GameSnapshot), 70 ∈ main_raws g →
       (read_memory s g).finished_game = true) ∧
    (∀ (s : MemoryReaderState) (g : GameSnapshot), s.finished_game = true →
       (read_memory s g).finished_game = true) ∧
    (∀ (s : MemoryReaderState) (inp : TickInputs), s.finished_game = true →
       (main_tick s inp).1.finished_game = true) ∧
    (∀ (s : MemoryReaderState) (inps : List TickInputs), s.finished_game = true →
       (run_ticks s inps).1.finished_game = true) := by
  refine ⟨by decide, ?_, read_memory_finished_mono, main_tick_finished_mono, ?_⟩
  · intro s g h
    rw [read_memory_finished_eq, if_pos h]
  · intro s inps h
    exact run_ticks_finished_mono inps s h

/-- Witness for C8: observing raw id 70 latches the flag, and the latched
flag survives a later tick whose snapshot no longer contains id 70. -/

theorem claim8_finished_game_latch_witness :
    (70 ∈ main_raws snapshotRaw70) ∧
    (read_memory freshReader snapshotRaw70).finished_game = true ∧
    finishedReader.finished_game = true ∧
    (run_ticks finishedReader [pollTickTwoMissions]).1.finished_game = true :=
  ⟨by decide,
   claim8_finished_game_latch.2.1 freshReader snapshotRaw70 (by decide),
   rfl,
   claim8_finished_game_latch.2.2.2.2 finishedReader [pollTickTwoMissions] rfl⟩

/-- C9 (corrected, counterexample): the claim states that entries at or
above `outbox_index` have not yet been reported upstream.  One tick from a
fresh reader over a snapshot with two new missions reports the whole outbox
`[1, 2]` while advancing the cursor only to 1, so the entry 2 at index 1 ≥
cursor has already been reported. -/

theorem claim9_outbox_cursor_cex :
    (run_ticks freshReader [pollTickTwoMissions]).1.outbox_index = 1 ∧
    (run_ticks freshReader [pollTickTwoMissions]).1.location_outbox[1]? = some 2 ∧
    2 ∈ reported_upstream (run_ticks freshReader [pollTickTwoMissions]).2 ∧
    ¬ (∀ i x, (run_ticks freshReader [pollTickTwoMissions]).1.outbox_index ≤ i →
        (run_ticks freshReader [pollTickTwoMissions]).1.location_outbox[i]? = some x →
        x ∉ reported_upstream (run_ticks freshReader [pollTickTwoMissions]).2) := by
  refine ⟨by decide, by decide, by decide, fun hall => ?_⟩
  exact hall 1 2 (by decide) (by decide) (by decide)

/-- C9 (corrected, amended): after every tick the cursor never exceeds the
outbox length and every outbox entry at an index strictly below
`outbox_index` has been reported upstream; entries at or above the cursor
may also have been reported already, since a reporting tick passes the
entire outbox upstream while advancing the cursor by exactly one. -/

theorem claim9_outbox_cursor_boundary :
    (∀ (s : MemoryReaderState) (rep : List Nat) (inp : TickInputs),
       cursor_inv s rep →
       cursor_inv (main_tick s inp).1
         (rep ++ (main_tick s inp).2.informed_locations.getD [])) ∧
    (∀ (s : MemoryReaderState) (inps : List TickInputs), s.outbox_index = 0 →
       cursor_inv (run_ticks s inps).1
         (reported_upstream (run_ticks s inps).2)) := by
  refine ⟨main_tick_cursor_inv, ?_⟩
  intro s inps h0
  have hinv : cursor_inv s [] :=
    ⟨by rw [h0]; exact Nat.zero_le _,
     fun i _ hi _ => absurd hi (by rw [h0] at hi ⊢; exact Nat.not_lt_zero i)⟩
  have h := run_ticks_cursor_inv inps s [] hinv
  simpa using h

/-- Witness for C9, run from a fresh reader over one reporting tick. -/

theorem claim9_outbox_cursor_boundary_witness :
    cursor_inv freshReader [] ∧
    freshReader.outbox_index = 0 ∧
    cursor_inv (run_ticks freshReader [pollTickTwoMissions]).1
      (reported_upstream (run_ticks freshReader [pollTickTwoMissions]).2) :=
  ⟨⟨Nat.zero_le _, fun i _ hi _ => absurd hi (Nat.not_lt_zero i)⟩, rfl,
   claim9_outbox_cursor_boundary.2 freshReader [pollTickTwoMissions] rfl⟩

/-- C10 (corrected, counterexample): the claim states that every memory
read failure during steady-state polling drops the agent to disconnected.
A tick whose liveness probe succeeds but whose `read_memory` scan raises a
memory-read error leaves the agent connected: the error is absorbed inside
`read_memory` (lines 1084-1090). -/

theorem claim10_read_failure_cex :
    scanFailTick.scan_fail = true ∧
    (main_tick freshReader scanFailTick).2.read_memory_invoked = true ∧
    (main_tick freshReader scanFailTick).1.connected = true := by
  decide

/-- C10 (corrected, amended): a liveness-probe read failure at the start of
a Ready tick drops the agent to disconnected, logs the user-actionable
remediation message, skips `read_memory`, and polling stays inert for every
further tick until an external reconnect request; a read failure inside the
mission-array scan is instead absorbed: `read_memory` returns `[]`, no
exception escapes, and the agent remains connected. -/

theorem claim10_read_failure_handling (s : MemoryReaderState) (inp : TickInputs)
    (hi : s.initiated_connect = false) (hc : s.connected = true) :
    (inp.ping_ok = false →
       (main_tick s inp).1.connected = false ∧
       (main_tick s inp).2.logged = [LogEvent.connectionLostRemediation] ∧
       (main_tick s inp).2.read_memory_invoked = false ∧
       ∀ inps : List TickInputs,
         (run_ticks (main_tick s inp).1 inps).1 = (main_tick s inp).1 ∧
         ∀ t ∈ (run_ticks (main_tick s inp).1 inps).2,
           t.read_memory_invoked = false) ∧
    (inp.ping_ok = true → inp.scan_fail = true →
       (main_tick s inp).1.connected = true ∧
       read_memory_checked s inp = (s, [])) := by
  have hcp : tick_connect_phase s inp = s := tick_connect_phase_skip s inp hi
  constructor
  · intro hping
    have h1 : main_tick s inp
        = ({ s with connected := false },
           { read_memory_invoked := false, informed_locations := none,
             informed_finished := false,
             logged := [LogEvent.connectionLostRemediation] }) := by
      unfold main_tick tick_poll_phase
      simp only [hcp, hc, hping]
      rfl
    refine ⟨by rw [h1], by rw [h1], by rw [h1], ?_⟩
    intro inps
    have hrun := run_ticks_not_connected inps { s with connected := false } rfl hi
    rw [h1]
    exact ⟨hrun.1, fun t ht => by rw [hrun.2 t ht]; rfl⟩
  · intro hping hscan
    have hrc : read_memory_checked s inp = (s, []) := by
      unfold read_memory_checked
      simp only [hscan]
      rfl
    refine ⟨?_, hrc⟩
    unfold main_tick tick_poll_phase
    simp only [hcp, hc, hping, hrc]
    rw [if_pos trivial, if_pos trivial]
    split
    · rfl
    · exact hc

/-- Witness for C10, at a fresh connected reader with a failing probe and
with a failing scan. -/

theorem claim10_read_failure_handling_witness :
    freshReader.initiated_connect = false ∧
    freshReader.connected = true ∧
    (pingFailTick.ping_ok = false ∧
      (main_tick freshReader pingFailTick).1.connected = false) ∧
    (scanFailTick.ping_ok = true ∧ scanFailTick.scan_fail = true ∧
      read_memory_checked freshReader scanFailTick = (freshReader, [])) :=
  ⟨rfl, rfl,
   ⟨rfl, ((claim10_read_failure_handling freshReader pingFailTick rfl rfl).1 rfl).1⟩,
   ⟨rfl, rfl,
    ((claim10_read_failure_handling freshReader scanFailTick rfl rfl).2 rfl rfl).2⟩⟩

end Jak2
